import Mathlib

/-!
Shallow embedding of the MCP weather example (praveenc/mcp_examples):
the Streamlit client orchestrator and dispatcher (client/app.py), the
terminal chatbot registry (mcp_client.py), and the weather server tools
(weather_server.py).  Model choices: provider transports are modelled by
their observable behaviour (an Except for the listing handshake and a
call function); every Python exception path that the source catches is an
Except.error value; raising an exception to the caller is an Except.error
result of the embedded function.
-/

namespace MCPWeather

/-- Single-quote character, used inside source-format error strings. -/
def sq : String := (Char.ofNat 39).toString

/-- The tool-result marker bytes that app.py line 125 prepends
(the literal characters U+F8FF, U+00FC, U+00EE, U+00DF in the source). -/
def toolMark : String :=
  String.mk [Char.ofNat 0xF8FF, Char.ofNat 0xFC, Char.ofNat 0xEE, Char.ofNat 0xDF]

/-- The failure marker bytes that app.py line 142 uses
(the literal characters U+201A, U+00F9, U+00E5 in the source). -/
def errMark : String :=
  String.mk [Char.ofNat 0x201A, Char.ofNat 0xF9, Char.ofNat 0xE5]

/-- The degree-sign bytes in the weather_server.py forecast format
(the literal characters U+00C2, U+00B0 in the source). -/
def degreeMark : String :=
  String.mk [Char.ofNat 0xC2, Char.ofNat 0xB0]

namespace App

/-- One configured provider as observed by StreamlitMCPClient._execute_tool:
opening the transport, initializing the session and listing tools either
raises (error) or yields the advertised tool names; calling a tool with
arguments either raises (error) or yields result content. -/
structure Server where
  listTools : Except String (List String)
  call : String → String → Except String String

/-- The dict returned by _execute_tool: success with content, or failure
with an error string. -/
inductive ToolResult
  | ok (content : String)
  | err (msg : String)
deriving DecidableEq

def ToolResult.isOk : ToolResult → Bool
  | .ok _ => true
  | .err _ => false

/-- The tool-not-found error string of app.py line 212. -/
def toolNotFoundMsg (name : String) : String :=
  "Tool " ++ sq ++ name ++ sq ++ " not found on any server"

/-- StreamlitMCPClient._execute_tool (app.py lines 160-217): probe each
configured server in registration order; a setup or listing exception is
caught and the next server is tried; if the server advertises the name,
invoke it, returning ok on success, and on an invocation exception fall
through to the next server; if no server owns the name, return the
not-found failure dict.  The function catches every exception, so the
embedding is total. -/
def execute_tool : List Server → String → String → ToolResult
  | [], tool_name, _arguments => .err (toolNotFoundMsg tool_name)
  | s :: rest, tool_name, arguments =>
    match s.listTools with
    | .error _ => execute_tool rest tool_name arguments
    | .ok available_tool_names =>
      if tool_name ∈ available_tool_names then
        match s.call tool_name arguments with
        | .ok content => .ok content
        | .error _ => execute_tool rest tool_name arguments
      else execute_tool rest tool_name arguments

/-- A server does not advertise the name: its listing either fails or
does not contain the name. -/
def notAdvertising (name : String) (s : Server) : Bool :=
  match s.listTools with
  | .error _ => true
  | .ok ts => !ts.contains name

/-- One content block of a model turn. -/
inductive Content
  | text (s : String)
  | toolUse (id name input : String)
deriving DecidableEq

def Content.isText : Content → Bool
  | .text _ => true
  | .toolUse _ _ _ => false

def Content.isToolUse : Content → Bool
  | .text _ => false
  | .toolUse _ _ _ => true

/-- One message of the conversation history kept in process_query. -/
inductive Message
  | user (content : String)
  | assistant (content : List Content)
  | toolResult (id content : String)
deriving DecidableEq

def Message.isToolResult : Message → Bool
  | .toolResult _ _ => true
  | _ => false

def Message.isAssistant : Message → Bool
  | .assistant _ => true
  | _ => false

/-- The line appended to response_text for a successful tool call
(app.py line 125). -/
def toolLine (name content : String) : String :=
  toolMark ++ " **" ++ name ++ "**: " ++ content

/-- Result of processing the content blocks of one model turn. -/
inductive TurnOut
  | early (out : String) (msgs : List Message) (dispatched : List String)
  | done (msgs : List Message) (resp : String) (htu : Bool) (dispatched : List String)

/-- The content loop of StreamlitMCPClient.process_query (app.py lines
102-148): text blocks are appended to response_text and to the turn
accumulator; a tool_use block appends the assistant message, dispatches
via execute_tool, and on success appends the formatted tool line and the
tool_result message, while on any failure the whole query returns early
with the accumulated text plus the failure marker.  The dispatched list
records, in order, each tool name handed to execute_tool. -/
def process_contents (servers : List Server) :
    List Content → List Message → String → List Content → Bool → List String → TurnOut
  | [], msgs, resp, _acc, htu, disp => .done msgs resp htu disp
  | .text s :: rest, msgs, resp, acc, htu, disp =>
    process_contents servers rest msgs (resp ++ s ++ "\n\n") (acc ++ [Content.text s]) htu disp
  | .toolUse i name input :: rest, msgs, resp, acc, htu, disp =>
    match execute_tool servers name input with
    | .ok content =>
      process_contents servers rest
        (msgs ++ [Message.assistant (acc ++ [Content.toolUse i name input]),
                  Message.toolResult i content])
        (resp ++ toolLine name content ++ "\n\n")
        (acc ++ [Content.toolUse i name input]) true (disp ++ [name])
    | .err e =>
      .early (resp ++ "\n\n" ++ errMark ++ " " ++ e)
        (msgs ++ [Message.assistant (acc ++ [Content.toolUse i name input])])
        (disp ++ [name])

/-- Observable result of one process_query run. -/
structure RunOut where
  output : Option String
  history : List Message
  dispatched : List String
deriving DecidableEq

/-- Python str.strip(): drop whitespace from both ends. -/
def pyStrip (s : String) : String :=
  ⟨((s.data.dropWhile Char.isWhitespace).reverse.dropWhile Char.isWhitespace).reverse⟩

/-- The final return expression of process_query (app.py lines 150-154). -/
def finalize (response_text : String) : String :=
  if pyStrip response_text = "" then "No response generated." else pyStrip response_text

/-- The while-True loop of process_query, driven by a script of model
turns (one list of content blocks per model response).  Output none means
the script was exhausted while the loop still wanted another model turn. -/
def run_loop (servers : List Server) :
    List (List Content) → List Message → String → List String → RunOut
  | [], msgs, _resp, disp => ⟨none, msgs, disp⟩
  | turn :: rest, msgs, resp, disp =>
    match process_contents servers turn msgs resp [] false disp with
    | .early out msgs2 disp2 => ⟨some out, msgs2, disp2⟩
    | .done msgs2 resp2 htu disp2 =>
      if htu then run_loop servers rest msgs2 resp2 disp2
      else ⟨some (finalize resp2), msgs2, disp2⟩

/-- StreamlitMCPClient.process_query (app.py lines 84-158) over a scripted
sequence of model turns. -/
def process_query (servers : List Server) (turns : List (List Content)) (query : String) :
    RunOut :=
  run_loop servers turns [Message.user query] "" []

/-- Does every tool_use block of the turn dispatch successfully? -/
def callsOk (servers : List Server) (turn : List Content) : Bool :=
  turn.all fun c =>
    match c with
    | .text _ => true
    | .toolUse _ name input => (execute_tool servers name input).isOk

/-- The segment a single content block contributes to response_text. -/
def renderContent (servers : List Server) : Content → String
  | .text s => s ++ "\n\n"
  | .toolUse _ name input =>
    match execute_tool servers name input with
    | .ok content => toolLine name content ++ "\n\n"
    | .err _ => ""

def renderTurn (servers : List Server) : List Content → String
  | [] => ""
  | c :: rest => renderContent servers c ++ renderTurn servers rest

def renderTurns (servers : List Server) : List (List Content) → String
  | [] => ""
  | t :: rest => renderTurn servers t ++ renderTurns servers rest

/-- The output the spec sentence for the final result describes: the
concatenation of the assistant text segments alone, across all turns in
emission order, trimmed, with the placeholder when empty.  Stated from
the spec words, for comparison with process_query. -/
def assistantTextOutput (turns : List (List Content)) : String :=
  finalize (String.join (turns.map fun t =>
    String.join (t.filterMap fun c =>
      match c with
      | Content.text s => some (s ++ "\n\n")
      | Content.toolUse _ _ _ => none)))

end App

namespace Chat

/-- One tool definition as appended to available_tools
(mcp_client.py lines 118-124). -/
structure ToolDef where
  name : String
  description : String
  input_schema : String
deriving DecidableEq

/-- One configured provider as observed by MCPChatBot.connect_to_server:
whether transport launch, session creation and the initialize handshake
succeed, and the result of list_tools (which may itself raise). -/
structure ServerInfo where
  connectOk : Bool
  listTools : Except String (List ToolDef)

/-- The state mutated by connect_to_server: the sessions dict mapping a
tool name to the session (identified here by a provider id) that last
registered it, and the available_tools list. -/
structure Registry where
  sessions : String → Option Nat
  available_tools : List ToolDef

def emptyRegistry : Registry := ⟨fun _ => none, []⟩

/-- The body of the tool loop of connect_to_server (mcp_client.py lines
116-124): sessions[tool.name] = session (overwriting any previous owner)
and available_tools.append(tool). -/
def registerTool (pid : Nat) (reg : Registry) (t : ToolDef) : Registry :=
  ⟨fun n => if n = t.name then some pid else reg.sessions n,
   reg.available_tools ++ [t]⟩

/-- MCPChatBot.connect_to_server (mcp_client.py lines 101-130): a launch
or handshake exception is caught and printed, leaving the registry
unchanged; a list_tools exception likewise; otherwise every advertised
tool is registered in listing order. -/
def connect_to_server (pid : Nat) (srv : ServerInfo) (reg : Registry) : Registry :=
  if srv.connectOk then
    match srv.listTools with
    | .ok tools => tools.foldl (registerTool pid) reg
    | .error _ => reg
  else reg

/-- Folding connect_to_server over the configured servers in registration
order, from a given starting registry state (the loop of
connect_to_servers, and equally the effect of running the builder again
on an already-populated instance). -/
def connectAll (servers : List (Nat × ServerInfo)) (reg : Registry) : Registry :=
  servers.foldl (fun r ps => connect_to_server ps.1 ps.2 r) reg

/-- MCPChatBot.connect_to_servers (mcp_client.py lines 132-141): re-raise
a configuration read error; otherwise connect every configured server,
never failing regardless of how many providers succeed. -/
def connect_to_servers (config : Except String (List (Nat × ServerInfo))) :
    Except String Registry :=
  match config with
  | .error e => .error e
  | .ok servers => .ok (connectAll servers emptyRegistry)

/-- Tools a provider actually contributes: none when launch, handshake or
listing fails. -/
def advertisedTools (srv : ServerInfo) : List ToolDef :=
  if srv.connectOk then
    match srv.listTools with
    | .ok tools => tools
    | .error _ => []
  else []

/-- Concatenation of all contributed tools in registration order. -/
def advertisedAll : List (Nat × ServerInfo) → List ToolDef
  | [] => []
  | ps :: rest => advertisedTools ps.2 ++ advertisedAll rest

/-- The provider id the sessions dict ends up holding for a name: the
last registered provider advertising it. -/
def ownerOf : List (Nat × ServerInfo) → String → Option Nat
  | [], _ => none
  | ps :: rest, n =>
    match ownerOf rest n with
    | some p => some p
    | none =>
      if n ∈ (advertisedTools ps.2).map ToolDef.name then some ps.1 else none

end Chat

namespace Weather

/-- One forecast period from the NWS forecast payload. -/
structure Period where
  name : String
  temperature : Int
  temperatureUnit : String
  windSpeed : String
  windDirection : String
  detailedForecast : String
deriving DecidableEq

/-- The f-string assigned to the loop variable for one period
(weather_server.py lines 175-180). -/
def formatPeriod (p : Period) : String :=
  "\n" ++ p.name ++ ":\nTemperature: " ++ toString p.temperature ++ degreeMark
    ++ p.temperatureUnit ++ "\nWind: " ++ p.windSpeed ++ " " ++ p.windDirection
    ++ "\nForecast: " ++ p.detailedForecast ++ "\n"

/-- The value bound to the loop variable after the loop over periods[:5]
(weather_server.py line 174): rebound on every iteration, so only the
last binding survives; none when the loop never ran. -/
def lastForecastBinding (periods : List Period) : Option String :=
  (periods.take 5).foldl (fun _ p => some (formatPeriod p)) none

/-- The UnboundLocalError raised when line 181 reads the loop variable
that was never bound. -/
def unboundLocalMsg : String :=
  "UnboundLocalError: local variable forecast referenced before assignment"

/-- The points response, reduced to the field get_forecast reads. -/
structure PointsData where
  forecastUrl : String

/-- get_forecast (weather_server.py lines 143-182), over the outcomes of
the two NWS requests: a falsy points response or a falsy forecast
response yields the respective apology string; otherwise the loop binds
the format string for each of the first five periods, and the single
append *after* the loop (line 181) joins only the last binding — raising
UnboundLocalError (modelled as Except.error) when there were no periods. -/
def get_forecast (points : Option PointsData) (forecast_data : Option (List Period)) :
    Except String String :=
  match points with
  | none => .ok "Unable to fetch forecast data for this location."
  | some _ =>
    match forecast_data with
    | none => .ok "Unable to fetch detailed forecast data."
    | some periods =>
      match lastForecastBinding periods with
      | none => .error unboundLocalMsg
      | some forecast => .ok (String.intercalate "\n---\n" [forecast])

/-- round_up_coordinate (weather_server.py lines 53-56) with the default
four decimal places, on exact rationals. -/
def round_up_coordinate (value : ℚ) : ℚ :=
  (⌈value * 10 ^ 4⌉ : ℚ) / 10 ^ 4

/-- Outcome of the geocoding HTTP call in get_lat_long: a successful JSON
response (an association of keys to already-float-converted values), a
timeout, a non-2xx status, or any other exception (which also covers a
float conversion failure, caught by the same generic handler). -/
inductive GeoOutcome
  | success (json : List (String × ℚ))
  | timeout
  | statusError (code : Nat) (body : String)
  | otherError (msg : String)

def coordMsg (latt longt : ℚ) : String :=
  "Latitude=" ++ toString (round_up_coordinate latt)
    ++ ", Longitude=" ++ toString (round_up_coordinate longt)

def noLocationMsg (place : String) : String :=
  "No location data found for " ++ place

def timeoutMsg (place : String) : String :=
  "Geocoding request timed out for " ++ place

def httpErrorMsg (code : Nat) (place body : String) : String :=
  "HTTP error " ++ toString code ++ " for " ++ place ++ ": " ++ body

def geocodingErrorMsg (place msg : String) : String :=
  "Geocoding error for " ++ place ++ ": " ++ msg

/-- get_lat_long (weather_server.py lines 85-140): on a successful
response whose dict is truthy and has both longt and latt keys, return
the rounded coordinate string; on a successful response without them,
the no-location string; every exception path is caught and mapped to its
descriptive error string, so the embedding is total — the function
always returns a string. -/
def get_lat_long (place : String) (outcome : GeoOutcome) : String :=
  match outcome with
  | .success d =>
    if !d.isEmpty && (d.lookup "longt").isSome && (d.lookup "latt").isSome then
      match d.lookup "latt", d.lookup "longt" with
      | some latt, some longt => coordMsg latt longt
      | _, _ => noLocationMsg place
    else noLocationMsg place
  | .timeout => timeoutMsg place
  | .statusError code body => httpErrorMsg code place body
  | .otherError msg => geocodingErrorMsg place msg

end Weather

end MCPWeather
namespace MCPWeather

theorem str_append_assoc (a b c : String) : a ++ b ++ c = a ++ (b ++ c) :=
  String.append_assoc a b c

namespace App

/-- Helper: a turn consisting solely of text blocks flows through the
content loop without touching history, the dispatch trace or the
tool-use flag; only response_text grows. -/
theorem process_contents_all_text (servers : List Server) :
    ∀ (turn : List Content), turn.all Content.isText = true →
    ∀ msgs resp acc htu disp,
      process_contents servers turn msgs resp acc htu disp =
        .done msgs (resp ++ renderTurn servers turn) htu disp := by
  intro turn
  induction turn with
  | nil =>
    intro _ msgs resp acc htu disp
    simp [process_contents, renderTurn, String.append_empty]
  | cons c rest ih =>
    intro h msgs resp acc htu disp
    cases c with
    | text s =>
      rw [List.all_cons, Bool.and_eq_true] at h
      rw [process_contents, ih h.2]
      simp [renderTurn, renderContent, str_append_assoc]
    | toolUse i n a => simp [List.all_cons, Content.isText] at h

/-- Helper: if the content loop completes a turn with the tool-use flag
still false, the turn contained only text blocks (and the flag was false
coming in). -/
theorem process_contents_done_false (servers : List Server) :
    ∀ (turn : List Content) msgs resp acc htu disp m2 r2 d2,
      process_contents servers turn msgs resp acc htu disp = .done m2 r2 false d2 →
      turn.all Content.isText = true ∧ htu = false := by
  intro turn
  induction turn with
  | nil =>
    intro msgs resp acc htu disp m2 r2 d2 h
    rw [process_contents] at h
    cases h
    exact ⟨rfl, rfl⟩
  | cons c rest ih =>
    intro msgs resp acc htu disp m2 r2 d2 h
    cases c with
    | text s =>
      rw [process_contents] at h
      have := ih _ _ _ _ _ _ _ _ h
      simp [List.all_cons, Content.isText, this.1, this.2]
    | toolUse i n a =>
      rw [process_contents] at h
      cases hx : execute_tool servers n a with
      | ok content =>
        rw [hx] at h
        have := ih _ _ _ _ _ _ _ _ h
        exact absurd this.2 (by simp)
      | err e => rw [hx] at h; cases h

/-- Helper: a turn whose tool calls all succeed completes, contributing
its rendered segments to response_text and setting the tool-use flag iff
it contained a tool_use block. -/
theorem process_contents_calls_ok (servers : List Server) :
    ∀ (turn : List Content), callsOk servers turn = true →
    ∀ msgs resp acc htu disp, ∃ m2 d2,
      process_contents servers turn msgs resp acc htu disp =
        .done m2 (resp ++ renderTurn servers turn)
          (htu || turn.any Content.isToolUse) d2 := by
  intro turn
  induction turn with
  | nil =>
    intro _ msgs resp acc htu disp
    exact ⟨msgs, disp, by simp [process_contents, renderTurn, String.append_empty]⟩
  | cons c rest ih =>
    intro h msgs resp acc htu disp
    rw [callsOk, List.all_cons, Bool.and_eq_true] at h
    obtain ⟨h1, h2⟩ := h
    cases c with
    | text s =>
      obtain ⟨m2, d2, hd⟩ := ih h2 msgs (resp ++ s ++ "\n\n")
        (acc ++ [Content.text s]) htu disp
      refine ⟨m2, d2, ?_⟩
      rw [process_contents, hd]
      simp [renderTurn, renderContent, str_append_assoc, List.any_cons, Content.isToolUse]
    | toolUse i n a =>
      dsimp only at h1
      cases hx : execute_tool servers n a with
      | ok content =>
        obtain ⟨m2, d2, hd⟩ := ih h2
          (msgs ++ [Message.assistant (acc ++ [Content.toolUse i n a]),
                    Message.toolResult i content])
          (resp ++ toolLine n content ++ "\n\n")
          (acc ++ [Content.toolUse i n a]) true (disp ++ [n])
        refine ⟨m2, d2, ?_⟩
        rw [process_contents, hx]
        dsimp only
        rw [hd]
        simp [renderTurn, renderContent, hx, str_append_assoc, List.any_cons,
          Content.isToolUse]
      | err e =>
        rw [hx] at h1
        simp [ToolResult.isOk] at h1

end App
end MCPWeather
namespace MCPWeather
namespace App

/-- Helper: a script of turns whose tool calls all succeed and which each
contain a tool_use, followed by a final all-text turn, runs the loop to a
normal exit whose output is the finalized concatenation of all rendered
segments. -/
theorem run_loop_render (servers : List Server) :
    ∀ (ts : List (List Content)) (t : List Content),
    (∀ turn ∈ ts, callsOk servers turn = true ∧ turn.any Content.isToolUse = true) →
    t.all Content.isText = true →
    ∀ msgs resp disp,
      (run_loop servers (ts ++ [t]) msgs resp disp).output =
        some (finalize (resp ++ renderTurns servers (ts ++ [t]))) := by
  intro ts
  induction ts with
  | nil =>
    intro t _ h2 msgs resp disp
    rw [List.nil_append, run_loop, process_contents_all_text servers t h2]
    simp [renderTurns, renderTurn, String.append_empty]
  | cons turn ts ih =>
    intro t h1 h2 msgs resp disp
    obtain ⟨hok, hany⟩ := h1 turn (List.mem_cons_self _ _)
    obtain ⟨m2, d2, hd⟩ := process_contents_calls_ok servers turn hok msgs resp [] false disp
    rw [List.cons_append, run_loop, hd]
    dsimp only
    rw [hany]
    simp only [Bool.false_or, if_true]
    rw [ih t (fun u hu => h1 u (List.mem_cons_of_mem _ hu)) h2]
    simp [renderTurns, str_append_assoc]

end App
end MCPWeather
namespace MCPWeather
namespace App

/-- Claim C5: for every operation name absent from every provider's
advertised listing, execute_tool probes all connections and returns the
not-found failure dict (and, being total, never raises). -/
theorem execute_tool_not_found (servers : List Server) (name args : String)
    (h : servers.all (notAdvertising name) = true) :
    execute_tool servers name args = .err (toolNotFoundMsg name) := by
  induction servers with
  | nil => rfl
  | cons s rest ih =>
    rw [List.all_cons, Bool.and_eq_true] at h
    obtain ⟨h1, h2⟩ := h
    rw [notAdvertising] at h1
    cases hlt : s.listTools with
    | error e => rw [execute_tool, hlt]; exact ih h2
    | ok ts =>
      rw [hlt] at h1
      dsimp only at h1
      have hmem : name ∉ ts := by
        intro hm
        simp at h1
        exact h1 hm
      rw [execute_tool, hlt]
      dsimp only
      rw [if_neg hmem]
      exact ih h2

theorem execute_tool_not_found_witness :
    execute_tool [⟨Except.ok ["get_alerts", "get_forecast", "get_lat_long"],
        fun _ _ => Except.ok "r"⟩] "missing_tool" "a"
      = .err (toolNotFoundMsg "missing_tool") :=
  execute_tool_not_found _ "missing_tool" "a" (by decide)

/-- Claim C6: a listing failure, or a provider-side invocation failure on
a provider that advertises the name, does not abort the linear probe of
execute_tool: the result is exactly the probe of the remaining providers,
so the error neither stops dispatch nor escapes as a fatal failure. -/
theorem execute_tool_probe_continues (s : Server) (rest : List Server)
    (name args : String)
    (h : (∃ e, s.listTools = .error e) ∨
      (∃ ts e, s.listTools = .ok ts ∧ name ∈ ts ∧ s.call name args = .error e)) :
    execute_tool (s :: rest) name args = execute_tool rest name args := by
  rcases h with ⟨e, he⟩ | ⟨ts, e, hts, hmem, hcall⟩
  · rw [execute_tool, he]
  · rw [execute_tool, hts]
    dsimp only
    rw [if_pos hmem, hcall]

theorem execute_tool_probe_continues_witness :
    execute_tool [⟨Except.error "transport down", fun _ _ => Except.ok "r"⟩,
        ⟨Except.ok ["get_forecast"], fun _ _ => Except.ok "ok2"⟩]
      "get_forecast" "a"
      = execute_tool [⟨Except.ok ["get_forecast"], fun _ _ => Except.ok "ok2"⟩]
          "get_forecast" "a" :=
  execute_tool_probe_continues _ _ "get_forecast" "a"
    (Or.inl ⟨"transport down", rfl⟩)

/-- Claim C1 counterexample: the model turn requests opX then opY, where
opX fails with the classified tool-not-found error while opY is available
on the single provider; the claim says opY is still dispatched and both
OperationResult messages reach the history, but the run dispatches only
opX and appends no tool_result message at all. -/
theorem logical_failure_short_circuits_cex :
    (process_query [⟨Except.ok ["opY"], fun _ _ => Except.ok "ydone"⟩]
        [[Content.toolUse "1" "opX" "a", Content.toolUse "2" "opY" "b"]]
        "q").dispatched = ["opX"] ∧
    ("opY" ∉ (process_query [⟨Except.ok ["opY"], fun _ _ => Except.ok "ydone"⟩]
        [[Content.toolUse "1" "opX" "a", Content.toolUse "2" "opY" "b"]]
        "q").dispatched) ∧
    (process_query [⟨Except.ok ["opY"], fun _ _ => Except.ok "ydone"⟩]
        [[Content.toolUse "1" "opX" "a", Content.toolUse "2" "opY" "b"]]
        "q").history.all (fun m => !m.isToolResult) = true := by
  refine ⟨by decide, by decide, by decide⟩

/-- Claim C1 amended: when the first operation request of a turn fails
with a classified logical error (tool-not-found or tool-level failure),
process_query short-circuits the whole query: the remaining requests of
the turn are never dispatched, no OperationResult message is appended,
and the accumulated text plus the failure marker is returned. -/
theorem process_query_early_exit_on_tool_failure (servers : List Server)
    (q i nX a e : String) (restC : List Content) (restT : List (List Content))
    (h : execute_tool servers nX a = .err e) :
    process_query servers ((Content.toolUse i nX a :: restC) :: restT) q =
      ⟨some ("\n\n" ++ errMark ++ " " ++ e),
       [Message.user q, Message.assistant [Content.toolUse i nX a]], [nX]⟩ := by
  rw [process_query, run_loop, process_contents, h]
  simp

theorem process_query_early_exit_on_tool_failure_witness :
    process_query [⟨Except.ok ["opY"], fun _ _ => Except.ok "y"⟩]
        [[Content.toolUse "1" "opX" "a", Content.toolUse "2" "opY" "b"]] "q"
      = ⟨some ("\n\n" ++ errMark ++ " " ++ toolNotFoundMsg "opX"),
         [Message.user "q", Message.assistant [Content.toolUse "1" "opX" "a"]],
         ["opX"]⟩ :=
  process_query_early_exit_on_tool_failure _ "q" "1" "opX" "a" _
    [Content.toolUse "2" "opY" "b"] [] (by decide)

end App
end MCPWeather
namespace MCPWeather
namespace App

/-- Claim C7 counterexample: a single text-only model turn produces the
assistant text as output, yet the conversation history still holds only
the seeded user message — the assistant text was never appended to
history, contrary to the claim. -/
theorem text_turn_history_cex :
    (process_query ([] : List Server) [[Content.text "hi"]] "q").output = some "hi" ∧
    (process_query ([] : List Server) [[Content.text "hi"]] "q").history
      = [Message.user "q"] ∧
    (process_query ([] : List Server) [[Content.text "hi"]] "q").history.all
      (fun m => !m.isAssistant) = true := by
  refine ⟨by decide, by decide, by decide⟩

/-- Claim C7 amended: a model turn with zero operation requests ends the
conversation loop — the Dispatcher is never invoked and the history is
left exactly as seeded, the assistant text reaching only the returned
output — and, conversely, a normal (non-early) loop exit can only happen
on such a zero-request turn. -/
theorem text_only_turn_terminates (servers : List Server) (q : String)
    (turn : List Content) (rest : List (List Content))
    (h : turn.all Content.isText = true) :
    process_query servers (turn :: rest) q =
      ⟨some (finalize (renderTurn servers turn)), [Message.user q], []⟩ ∧
    (∀ turn2 msgs resp acc disp m2 r2 d2,
      process_contents servers turn2 msgs resp acc false disp = .done m2 r2 false d2 →
      turn2.all Content.isText = true) := by
  constructor
  · rw [process_query, run_loop, process_contents_all_text servers turn h]
    simp [String.empty_append]
  · intro turn2 msgs resp acc disp m2 r2 d2 hdone
    exact (process_contents_done_false servers turn2 msgs resp acc false disp
      m2 r2 d2 hdone).1

theorem text_only_turn_terminates_witness :
    process_query ([] : List Server) [[Content.text "hi"]] "q"
      = ⟨some (finalize (renderTurn ([] : List Server) [Content.text "hi"])),
         [Message.user "q"], []⟩ :=
  (text_only_turn_terminates [] "q" [Content.text "hi"] [] (by decide)).1

/-- Claim C8 counterexample: a successful tool call followed by a final
text turn yields an output that carries the formatted tool-result line,
so the output is not the concatenation of the assistant text segments
alone (which would be just the trimmed final text). -/
theorem output_includes_tool_results_cex :
    (process_query [⟨Except.ok ["t"], fun _ _ => Except.ok "X"⟩]
        [[Content.toolUse "1" "t" "a"], [Content.text "bye"]] "q").output
      = some (toolMark ++ " **t**: X\n\nbye") ∧
    assistantTextOutput [[Content.toolUse "1" "t" "a"], [Content.text "bye"]]
      = "bye" ∧
    (toolMark ++ " **t**: X\n\nbye") ≠ "bye" := by
  refine ⟨by decide, by decide, by decide⟩

/-- Claim C8 amended: for every query that completes normally (every
dispatched call succeeds and the final turn is text-only), the returned
output is the trimmed concatenation, in emission order, of all assistant
text segments and one formatted line per successful operation result,
with the canonical placeholder when nothing was produced. -/
theorem process_query_output_rendered (servers : List Server) (q : String)
    (ts : List (List Content)) (t : List Content)
    (h1 : ∀ turn ∈ ts, callsOk servers turn = true ∧
      turn.any Content.isToolUse = true)
    (h2 : t.all Content.isText = true) :
    (process_query servers (ts ++ [t]) q).output
      = some (finalize (renderTurns servers (ts ++ [t]))) := by
  rw [process_query, run_loop_render servers ts t h1 h2, String.empty_append]

theorem process_query_output_rendered_witness :
    (process_query [⟨Except.ok ["t"], fun _ _ => Except.ok "X"⟩]
        ([[Content.toolUse "1" "t" "a"]] ++ [[Content.text "bye"]]) "q").output
      = some (finalize (renderTurns [⟨Except.ok ["t"], fun _ _ => Except.ok "X"⟩]
          ([[Content.toolUse "1" "t" "a"]] ++ [[Content.text "bye"]]))) :=
  process_query_output_rendered _ "q" [[Content.toolUse "1" "t" "a"]]
    [Content.text "bye"] (by decide) (by decide)

end App
end MCPWeather
namespace MCPWeather
namespace Chat

/-- Helper: the tool loop appends every advertised tool to
available_tools in listing order. -/
theorem tools_foldl (pid : Nat) :
    ∀ (tools : List ToolDef) (reg : Registry),
      (tools.foldl (registerTool pid) reg).available_tools
        = reg.available_tools ++ tools := by
  intro tools
  induction tools with
  | nil => intro reg; simp
  | cons t rest ih =>
    intro reg
    rw [List.foldl_cons, ih]
    simp [registerTool]

/-- Helper: connect_to_server appends exactly the tools the provider
actually contributes. -/
theorem tools_connect_to_server (pid : Nat) (s : ServerInfo) (reg : Registry) :
    (connect_to_server pid s reg).available_tools
      = reg.available_tools ++ advertisedTools s := by
  rw [connect_to_server, advertisedTools]
  cases hc : s.connectOk with
  | false => simp
  | true =>
    cases hlt : s.listTools with
    | ok tools => simp [tools_foldl]
    | error e => simp

/-- Helper: folding all providers appends each provider's contributed
tools in registration order. -/
theorem tools_connectAll :
    ∀ (servers : List (Nat × ServerInfo)) (reg : Registry),
      (connectAll servers reg).available_tools
        = reg.available_tools ++ advertisedAll servers := by
  intro servers
  induction servers with
  | nil => intro reg; simp [connectAll, advertisedAll]
  | cons ps rest ih =>
    intro reg
    rw [connectAll, List.foldl_cons]
    rw [show (List.foldl (fun r c => connect_to_server c.1 c.2 r) (connect_to_server ps.1 ps.2 reg) rest)
        = connectAll rest (connect_to_server ps.1 ps.2 reg) from rfl]
    rw [ih, tools_connect_to_server, advertisedAll, List.append_assoc]

/-- Helper: after the tool loop, the sessions dict maps a name to this
provider iff the name is among the registered tools, otherwise keeping
its previous owner. -/
theorem sessions_foldl (pid : Nat) :
    ∀ (tools : List ToolDef) (reg : Registry) (n : String),
      (tools.foldl (registerTool pid) reg).sessions n
        = if n ∈ tools.map ToolDef.name then some pid else reg.sessions n := by
  intro tools
  induction tools with
  | nil => intro reg n; simp
  | cons t rest ih =>
    intro reg n
    rw [List.foldl_cons, ih]
    by_cases hr : n ∈ rest.map ToolDef.name
    · simp [hr]
    · by_cases he : n = t.name
      · simp [hr, he, registerTool]
      · simp [hr, he, registerTool]

theorem sessions_connect_to_server (pid : Nat) (s : ServerInfo) (reg : Registry)
    (n : String) :
    (connect_to_server pid s reg).sessions n
      = if n ∈ (advertisedTools s).map ToolDef.name then some pid
        else reg.sessions n := by
  rw [connect_to_server, advertisedTools]
  cases hc : s.connectOk with
  | false => simp
  | true =>
    cases hlt : s.listTools with
    | ok tools => simp [sessions_foldl]
    | error e => simp

/-- Helper: the sessions dict built by folding all providers maps a name
to its last-registered owner. -/
theorem sessions_connectAll :
    ∀ (servers : List (Nat × ServerInfo)) (reg : Registry) (n : String),
      (connectAll servers reg).sessions n
        = match ownerOf servers n with
          | some p => some p
          | none => reg.sessions n := by
  intro servers
  induction servers with
  | nil => intro reg n; simp [connectAll, ownerOf]
  | cons ps rest ih =>
    intro reg n
    rw [connectAll, List.foldl_cons]
    rw [show (List.foldl (fun r c => connect_to_server c.1 c.2 r) (connect_to_server ps.1 ps.2 reg) rest)
        = connectAll rest (connect_to_server ps.1 ps.2 reg) from rfl]
    rw [ih, ownerOf]
    cases ho : ownerOf rest n with
    | some p => rfl
    | none =>
      dsimp only
      rw [sessions_connect_to_server]
      by_cases hm : n ∈ (advertisedTools ps.2).map ToolDef.name
      · simp [hm]
      · simp [hm]

end Chat
end MCPWeather
namespace MCPWeather
namespace Chat

/-- Claim C2 counterexample: two providers advertising the same tool name
leave two descriptors in the aggregated catalog (the claim demands
exactly one) and the sessions routing table maps the name to the
last-registered provider, id 1 (the claim demands the first, id 0). -/
theorem duplicate_tool_catalog_cex :
    (connectAll [(0, ⟨true, Except.ok [⟨"t", "d1", "i1"⟩]⟩),
        (1, ⟨true, Except.ok [⟨"t", "d2", "i2"⟩]⟩)] emptyRegistry).available_tools
      = [⟨"t", "d1", "i1"⟩, ⟨"t", "d2", "i2"⟩] ∧
    (connectAll [(0, ⟨true, Except.ok [⟨"t", "d1", "i1"⟩]⟩),
        (1, ⟨true, Except.ok [⟨"t", "d2", "i2"⟩]⟩)] emptyRegistry).sessions "t"
      = some 1 := by
  refine ⟨by decide, by decide⟩

/-- Claim C2 amended: when two providers advertise the same operation
name, catalog construction still succeeds, but the aggregated catalog
retains one descriptor per provider (both, in registration order) and
the sessions routing table maps the name to the last-registered
provider. -/
theorem duplicate_tool_last_wins (p1 p2 : Nat) (s1 s2 : ServerInfo)
    (t1 t2 : ToolDef) (n : String)
    (h1 : advertisedTools s1 = [t1]) (h2 : advertisedTools s2 = [t2])
    (e1 : t1.name = n) (e2 : t2.name = n) :
    (connectAll [(p1, s1), (p2, s2)] emptyRegistry).available_tools = [t1, t2] ∧
    (connectAll [(p1, s1), (p2, s2)] emptyRegistry).sessions n = some p2 ∧
    (connect_to_servers (.ok [(p1, s1), (p2, s2)])).isOk = true := by
  refine ⟨?_, ?_, ?_⟩
  · rw [tools_connectAll]
    simp [advertisedAll, h1, h2, emptyRegistry]
  · rw [sessions_connectAll]
    simp [ownerOf, h1, h2, e1, e2]
  · rfl

theorem duplicate_tool_last_wins_witness :
    (connectAll [(0, ⟨true, Except.ok [⟨"get_alerts", "dA", "iA"⟩]⟩),
        (1, ⟨true, Except.ok [⟨"get_alerts", "dB", "iB"⟩]⟩)]
        emptyRegistry).available_tools
      = [⟨"get_alerts", "dA", "iA"⟩, ⟨"get_alerts", "dB", "iB"⟩] ∧
    (connectAll [(0, ⟨true, Except.ok [⟨"get_alerts", "dA", "iA"⟩]⟩),
        (1, ⟨true, Except.ok [⟨"get_alerts", "dB", "iB"⟩]⟩)]
        emptyRegistry).sessions "get_alerts" = some 1 ∧
    (connect_to_servers (.ok [(0, ⟨true, Except.ok [⟨"get_alerts", "dA", "iA"⟩]⟩),
        (1, ⟨true, Except.ok [⟨"get_alerts", "dB", "iB"⟩]⟩)])).isOk = true :=
  duplicate_tool_last_wins 0 1 _ _ _ _ "get_alerts" (by decide) (by decide) rfl rfl

/-- Helper: a provider that fails to launch, fails its handshake, or
fails listing leaves the registry untouched. -/
theorem connect_to_server_failed (pid : Nat) (s : ServerInfo) (reg : Registry)
    (h : s.connectOk = false ∨ ∃ e, s.listTools = .error e) :
    connect_to_server pid s reg = reg := by
  rcases h with hc | ⟨e, he⟩
  · rw [connect_to_server, hc]
    simp
  · rw [connect_to_server, he]
    cases s.connectOk <;> simp

/-- Helper: when every configured provider fails, the fold leaves the
starting registry unchanged. -/
theorem connectAll_all_failed :
    ∀ (servers : List (Nat × ServerInfo)) (reg : Registry),
      (∀ ps ∈ servers, ps.2.connectOk = false ∨ ∃ e, ps.2.listTools = .error e) →
      connectAll servers reg = reg := by
  intro servers
  induction servers with
  | nil => intro reg _; rfl
  | cons ps rest ih =>
    intro reg h
    rw [connectAll, List.foldl_cons,
      connect_to_server_failed ps.1 ps.2 reg (h ps (List.mem_cons_self _ _))]
    exact ih reg fun u hu => h u (List.mem_cons_of_mem _ hu)

/-- Claim C3 (corrected): a provider that fails to launch or fails its
handshake is excluded from the catalog without failing the load; the
load fails only when the configuration itself cannot be read; and when
zero providers succeed the load still returns an empty registry instead
of failing with a NoProvidersAvailable error. -/
theorem failed_provider_excluded_load_total :
    (∀ (pid : Nat) (s : ServerInfo) (reg : Registry),
      (s.connectOk = false ∨ ∃ e, s.listTools = .error e) →
      connect_to_server pid s reg = reg) ∧
    (∀ servers : List (Nat × ServerInfo),
      (∀ ps ∈ servers, ps.2.connectOk = false ∨ ∃ e, ps.2.listTools = .error e) →
      connect_to_servers (.ok servers) = .ok emptyRegistry) ∧
    (∀ e, connect_to_servers (.error e) = .error e) := by
  refine ⟨connect_to_server_failed, ?_, fun e => rfl⟩
  intro servers h
  rw [connect_to_servers, connectAll_all_failed servers emptyRegistry h]

/-- Claim C3 counterexample: a configuration with one provider that fails
to launch makes zero providers succeed, yet the load returns success
with an empty registry — it does not fail with NoProvidersAvailable. -/
theorem zero_providers_load_succeeds_cex :
    connect_to_servers (.ok [(0, ⟨false, Except.error "spawn failed"⟩)])
      = .ok emptyRegistry := rfl

theorem failed_provider_excluded_load_total_witness :
    connect_to_server 0 ⟨false, Except.ok []⟩ emptyRegistry = emptyRegistry ∧
    connect_to_servers (.ok [(1, ⟨false, Except.error "boom"⟩)])
      = .ok emptyRegistry ∧
    connect_to_servers (Except.error "config missing")
      = .error "config missing" :=
  ⟨failed_provider_excluded_load_total.1 0 ⟨false, Except.ok []⟩ emptyRegistry
      (Or.inl rfl),
   failed_provider_excluded_load_total.2.1 [(1, ⟨false, Except.error "boom"⟩)]
      (by
        intro ps hps
        rw [List.mem_singleton] at hps
        subst hps
        exact Or.inl rfl),
   failed_provider_excluded_load_total.2.2 "config missing"⟩

/-- Claim C4 counterexample: running the catalog builder a second time
over the same single-provider configuration does not reproduce the first
catalog — it extends it. -/
theorem catalog_rebuild_extends_cex :
    (connectAll [(0, ⟨true, Except.ok [⟨"t", "d", "i"⟩]⟩)]
        (connectAll [(0, ⟨true, Except.ok [⟨"t", "d", "i"⟩]⟩)]
          emptyRegistry)).available_tools
      ≠ (connectAll [(0, ⟨true, Except.ok [⟨"t", "d", "i"⟩]⟩)]
          emptyRegistry).available_tools := by
  decide

/-- Claim C4 amended: invoking the catalog builder twice on the same
fixed set of connections appends the same ordered descriptor sequence
again — the second catalog is the first concatenated with itself — while
the sessions routing table is unchanged by the rebuild. -/
theorem catalog_rebuild_appends_again (servers : List (Nat × ServerInfo)) :
    (connectAll servers (connectAll servers emptyRegistry)).available_tools
      = (connectAll servers emptyRegistry).available_tools
        ++ (connectAll servers emptyRegistry).available_tools ∧
    (connectAll servers (connectAll servers emptyRegistry)).sessions
      = (connectAll servers emptyRegistry).sessions := by
  constructor
  · rw [tools_connectAll, tools_connectAll]
    simp [emptyRegistry]
  · funext n
    rw [sessions_connectAll, sessions_connectAll]
    cases ho : ownerOf servers n with
    | some p => rfl
    | none => simp [sessions_connectAll, ho]

end Chat
end MCPWeather
namespace MCPWeather
namespace Weather

/-- Helper: a fold that rebinds its accumulator to the formatted current
element keeps only the last element's binding. -/
theorem foldl_last_binding :
    ∀ (l : List Period) (a : Option String),
      l.foldl (fun _ p => some (formatPeriod p)) a
        = match l.getLast? with
          | some p => some (formatPeriod p)
          | none => a := by
  intro l
  induction l with
  | nil => intro a; rfl
  | cons p rest ih =>
    intro a
    rw [List.foldl_cons, ih, List.getLast?_cons]
    cases hr : rest.getLast? with
    | some q => rfl
    | none => rfl

/-- Claim C9: with both NWS requests successful, get_forecast returns a
string holding exactly one formatted period block — the block of the
last of the first five periods — and when the periods list is empty it
fails with the unbound-local error instead of returning a string. -/
theorem get_forecast_single_block (pts : PointsData) (periods : List Period)
    (p : Period) :
    ((periods.take 5).getLast? = some p →
      get_forecast (some pts) (some periods) = .ok (formatPeriod p)) ∧
    get_forecast (some pts) (some ([] : List Period)) = .error unboundLocalMsg := by
  constructor
  · intro h
    rw [get_forecast, lastForecastBinding, foldl_last_binding, h]
    rfl
  · rfl

theorem get_forecast_single_block_witness :
    get_forecast (some ⟨"u"⟩)
        (some [⟨"Tonight", 60, "F", "5 mph", "NW", "Clear"⟩,
               ⟨"Tomorrow", 70, "F", "6 mph", "SW", "Sunny"⟩])
      = .ok (formatPeriod ⟨"Tomorrow", 70, "F", "6 mph", "SW", "Sunny"⟩) :=
  (get_forecast_single_block ⟨"u"⟩ _ _).1 (by decide)

/-- Claim C10: get_lat_long returns a string on every outcome of the
geocoding call — the rounded coordinate string exactly when the response
succeeded with both latt and longt fields, and the matching descriptive
error string in every other case (timeout, HTTP status error, any other
exception); no outcome raises. -/
theorem get_lat_long_classified (place : String) (d : List (String × ℚ))
    (la lo : ℚ) (code : Nat) (body msg : String) :
    (d.lookup "latt" = some la → d.lookup "longt" = some lo →
      get_lat_long place (.success d) = coordMsg la lo) ∧
    ((d.lookup "latt").isSome = false ∨ (d.lookup "longt").isSome = false →
      get_lat_long place (.success d) = noLocationMsg place) ∧
    get_lat_long place .timeout = timeoutMsg place ∧
    get_lat_long place (.statusError code body) = httpErrorMsg code place body ∧
    get_lat_long place (.otherError msg) = geocodingErrorMsg place msg := by
  refine ⟨?_, ?_, rfl, rfl, rfl⟩
  · intro hla hlo
    have hne : d.isEmpty = false := by
      cases d with
      | nil => cases hla
      | cons x xs => rfl
    rw [get_lat_long]
    rw [hla, hlo, hne]
    simp
  · intro h
    rcases h with h | h <;> simp [get_lat_long, h]

theorem get_lat_long_classified_witness :
    get_lat_long "san diego"
        (.success [("latt", (32 : ℚ)), ("longt", (-117 : ℚ))])
      = coordMsg 32 (-117) :=
  (get_lat_long_classified "san diego" [("latt", (32 : ℚ)), ("longt", (-117 : ℚ))]
      32 (-117) 0 "" "").1 (by decide) (by decide)

end Weather
end MCPWeather
